import Mathlib

/-!
Shallow embedding of the hakim-elysia student CRUD service.

Server side: the Elysia handlers in the server entry point (embedded in
src/README.md): GET /students (list with pagination), GET /students/search/:text,
POST /students, PUT /students/:id, DELETE /students/:id, plus the startup
`createIndexes` call.  MongoDB itself is an external collaborator; the store is
modelled as a list of documents in insertion order with a counter generating
fresh `_id`s, and the unique index on `student_id` as a flag that the modelled
insert/update primitives honour.

Client side: the query-coordinator logic of src/client/src/App.tsx
(handlePageChange, the page-reset and fetch effects, keystroke handling); the
`useDebounce` hook's file is not part of the sources and is modelled from the
spec where noted.
-/

namespace HakimElysia

/-- The `Student` interface of the server (the four operator-supplied fields).
An absent optional field of an incoming body is represented as `""`. -/
structure Student where
  student_id : String
  firstname : String
  lastname : String
  nickname : String
deriving DecidableEq, Repr

/-- A persisted document: the four fields plus the store-generated `_id`
(modelled as a `Nat`; MongoDB ObjectIds are opaque). -/
structure StudentDoc where
  _id : Nat
  student_id : String
  firstname : String
  lastname : String
  nickname : String
deriving DecidableEq, Repr

/-- The record store.  `records` is the collection in its natural (insertion)
order; `nextId` generates fresh `_id`s; `uniqueStudentId` records whether the
unique index on `student_id` (created by `createIndexes` at startup) exists. -/
structure Store where
  records : List StudentDoc
  nextId : Nat
  uniqueStudentId : Bool
deriving DecidableEq, Repr

/-- `createIndexes` (server startup, called from `connectToMongo`): declares the
unique index on `student_id`.  The three non-unique indexes only affect lookup
speed, not behaviour, and are not modelled. -/
def createIndexes (st : Store) : Store :=
  { st with uniqueStudentId := true }

inductive DbError where
  | duplicateKey
deriving DecidableEq, Repr

/-- Modelled from the spec: the external record store's `insertOne`.  MongoDB
enforces a declared unique index at the store level, rejecting an insert whose
`student_id` duplicates an existing document; otherwise the document is
appended in natural order with a fresh store-generated id. -/
def Store.insertOne (st : Store) (s : Student) : Except DbError (Nat × Store) :=
  if st.uniqueStudentId && st.records.any (fun d => d.student_id == s.student_id) then
    .error .duplicateKey
  else
    .ok (st.nextId,
      { st with
        records := st.records ++ [⟨st.nextId, s.student_id, s.firstname, s.lastname, s.nickname⟩]
        nextId := st.nextId + 1 })

/-- `findOne({student_id: sid})`: first document (in natural order) with the
given natural key. -/
def Store.findOneByStudentId (st : Store) (sid : String) : Option StudentDoc :=
  st.records.find? (fun d => d.student_id == sid)

/-- `findOne({student_id: sid, _id: {$ne: excludeId}})`: first document with the
given natural key other than the one being updated. -/
def Store.findOneConflict (st : Store) (sid : String) (excludeId : Nat) : Option StudentDoc :=
  st.records.find? (fun d => d.student_id == sid && d._id != excludeId)

/-- `$set` of all four operator-supplied fields; `_id` is untouched. -/
def setFields (d : StudentDoc) (s : Student) : StudentDoc :=
  { d with student_id := s.student_id, firstname := s.firstname,
           lastname := s.lastname, nickname := s.nickname }

/-- Replace the first document with the given `_id` (MongoDB `updateOne`
updates a single matching document; `_id` is unique so at most one matches). -/
def updateFirstById : List StudentDoc → Nat → Student → List StudentDoc
  | [], _, _ => []
  | d :: rest, id, s =>
    if d._id == id then setFields d s :: rest else d :: updateFirstById rest id s

/-- Modelled from the spec: the external store's `updateOne({_id}, {$set: body})`,
honouring the unique index (a `$set` that would duplicate another document's
`student_id` is rejected).  Returns the `matchedCount` and the new store. -/
def Store.updateOneById (st : Store) (id : Nat) (s : Student) :
    Except DbError (Nat × Store) :=
  if st.uniqueStudentId &&
      st.records.any (fun d => d.student_id == s.student_id && d._id != id) then
    .error .duplicateKey
  else if st.records.any (fun d => d._id == id) then
    .ok (1, { st with records := updateFirstById st.records id s })
  else
    .ok (0, st)

/-- Remove the first document with the given `_id`. -/
def eraseFirstById : List StudentDoc → Nat → List StudentDoc
  | [], _ => []
  | d :: rest, id => if d._id == id then rest else d :: eraseFirstById rest id

/-- The external store's `deleteOne({_id})`: returns the `deletedCount` and the
new store. -/
def Store.deleteOneById (st : Store) (id : Nat) : Nat × Store :=
  if st.records.any (fun d => d._id == id) then
    (1, { st with records := eraseFirstById st.records id })
  else
    (0, st)

/-- Outcome of a handler: a value, an explicit `Response` with an HTTP status
and a `{message}` body, or an uncaught thrown `Error` (whose HTTP mapping is
performed by the framework, outside these sources). -/
inductive HandlerResult (α : Type) where
  | ok : α → HandlerResult α
  | httpError : Nat → String → HandlerResult α
  | thrown : String → HandlerResult α
deriving DecidableEq, Repr

/-- Whether the handler itself produced a `Response` with an explicit HTTP
status (as the create and update handlers do for 400/404).  A `thrown` Error
carries no status of its own: its status is assigned by the framework's
default error handling (500 for a plain `Error` in Elysia), outside these
sources. -/
def HandlerResult.isHttpError : HandlerResult α → Bool
  | .httpError _ _ => true
  | _ => false

/-- `POST /students`: pre-check the natural key with `findOne`, reject with a
400 Response if held, otherwise `insertOne` and return `{...body, _id}`.  The
handler performs no field validation (the body is only type-annotated, and the
`catch` converts a store error into a 400 Response). -/
def createStudent (st : Store) (body : Student) : HandlerResult StudentDoc × Store :=
  match st.findOneByStudentId body.student_id with
  | some _ => (.httpError 400 "Student ID already exists", st)
  | none =>
    match st.insertOne body with
    | .ok (newId, st') =>
      (.ok ⟨newId, body.student_id, body.firstname, body.lastname, body.nickname⟩, st')
    | .error _ => (.httpError 400 "duplicate key error", st)

/-- `PUT /students/:id`: pre-check the natural key against *other* documents
(400 Response), then `updateOne`; `matchedCount == 0` gives a 404 Response,
otherwise `{...body, _id: id}` is returned. -/
def updateStudent (st : Store) (id : Nat) (body : Student) :
    HandlerResult StudentDoc × Store :=
  match st.findOneConflict body.student_id id with
  | some _ => (.httpError 400 "Student ID already exists", st)
  | none =>
    match st.updateOneById id body with
    | .ok (matchedCount, st') =>
      if matchedCount == 0 then (.httpError 404 "Student not found", st')
      else (.ok ⟨id, body.student_id, body.firstname, body.lastname, body.nickname⟩, st')
    | .error _ => (.httpError 400 "duplicate key error", st)

/-- `DELETE /students/:id`: `deleteOne`; a zero `deletedCount` raises a thrown
`Error` (re-thrown unchanged by the `catch`), otherwise a `{message}`
confirmation is returned. -/
def deleteStudent (st : Store) (id : Nat) : HandlerResult String × Store :=
  let r := st.deleteOneById id
  if r.1 == 0 then (.thrown "Can't find this student to delete.", r.2)
  else (.ok "Student deleted successfully", r.2)

/-! ### Pagination and the list handler -/

structure Pagination where
  total : Nat
  page : Nat
  limit : Nat
  totalPages : Nat
deriving DecidableEq, Repr

structure ListResponse where
  students : List StudentDoc
  pagination : Pagination
deriving DecidableEq, Repr

/-- `Math.ceil(a / b)` for natural `a` and positive `b` (the handlers' `limit`
is positive after the `|| 10` defaulting). -/
def ceilDivNat (a b : Nat) : Nat := (a + b - 1) / b

/-- Shared skip/limit/count logic of the list and search handlers: skip
`(page-1)*limit` documents, take `limit`, report `total` and
`totalPages = Math.ceil(total/limit)`.  `page` and `limit` are the values after
the handlers' `Number(query?...) || default` parsing. -/
def paginate (l : List StudentDoc) (page limit : Nat) : ListResponse :=
  let skip := (page - 1) * limit
  { students := (l.drop skip).take limit
    pagination :=
      { total := l.length, page := page, limit := limit
        totalPages := ceilDivNat l.length limit } }

/-- `GET /students`: unfiltered find in natural order with skip/limit, plus a
`countDocuments({})`. -/
def getStudents (st : Store) (page limit : Nat) : ListResponse :=
  paginate st.records page limit

/-! ### The search handler

The handler builds `new RegExp(searchText, 'i')` from the raw (URL-decoded)
text and `$or`s it over the four fields: the text is used as a *regular
expression pattern*, not as a literal string.  The model parses the pattern
into a list of single-character atoms, treating `.` as the JS wildcard (any
character except a line terminator) and any other character as a literal; this
is faithful to JS regex semantics exactly for patterns containing no special
character other than `.`, and every theorem below that quantifies over
patterns restricts them accordingly (`isRegexMeta`).  The `i` flag is modelled
by comparing `Char.toLower` images (adequate for ASCII case variation; Thai
has no letter case).  The `collation` on the cursor does not affect `$regex`
matching. -/

inductive RegexAtom where
  | lit : Char → RegexAtom
  | dot
deriving DecidableEq, Repr

def parseRegex (s : String) : List RegexAtom :=
  s.toList.map fun c => if c == '.' then RegexAtom.dot else RegexAtom.lit c

/-- JS line terminators, which `.` does not match. -/
def isLineTerminator (c : Char) : Bool :=
  c.toNat == 10 || c.toNat == 13 || c.toNat == 0x2028 || c.toNat == 0x2029

def atomMatches (a : RegexAtom) (c : Char) : Bool :=
  match a with
  | .lit l => l.toLower == c.toLower
  | .dot => !(isLineTerminator c)

/-- The pattern matches at the very start of the character list. -/
def matchesHere : List RegexAtom → List Char → Bool
  | [], _ => true
  | _ :: _, [] => false
  | a :: p, c :: cs => atomMatches a c && matchesHere p cs

/-- The pattern matches somewhere in the character list (JS `RegExp.test` /
MongoDB `$regex`: unanchored). -/
def matchesIn (p : List RegexAtom) : List Char → Bool
  | [] => matchesHere p []
  | c :: cs => matchesHere p (c :: cs) || matchesIn p cs

def regexTest (pattern s : String) : Bool :=
  matchesIn (parseRegex pattern) s.toList

/-- The `$or` filter of the search handler over the four fields. -/
def searchFilter (text : String) (d : StudentDoc) : Bool :=
  regexTest text d.student_id || regexTest text d.firstname ||
    regexTest text d.lastname || regexTest text d.nickname

/-- `GET /students/search/:text` (with `text` already URL-decoded): filtered
find with the same skip/limit/count logic as the list handler. -/
def searchStudents (st : Store) (text : String) (page limit : Nat) : ListResponse :=
  paginate (st.records.filter (searchFilter text)) page limit

/-- JS regular-expression special characters.  The spec side of claim C2 only
makes sense for query texts in which every character stands for itself. -/
def isRegexMeta (c : Char) : Bool :=
  c == '.' || c == '*' || c == '+' || c == '?' || c == '^' || c == '$' ||
    c == '(' || c == ')' || c == '[' || c == ']' || c == '|' || c == '\\' ||
    c.toNat == 123 || c.toNat == 125

/-- Case folding used to model the `i` flag. -/
def lowerChars (s : String) : List Char := s.toList.map Char.toLower

/-- Spec-side predicate: `hay` contains `needle` as a literal substring,
compared case-insensitively. -/
def containsCI (hay needle : String) : Prop :=
  lowerChars needle <:+: lowerChars hay

instance (hay needle : String) : Decidable (containsCI hay needle) := by
  unfold containsCI; infer_instance

/-! ### The client query coordinator (src/client/src/App.tsx)

State is the part of the React component the claims are about: the raw search
input (`searchText`), the debounced value (`debouncedSearchText`), the pending
debounce timer, the pagination cursor, the busy flag and the log of HTTP
requests issued by `fetchStudents` (a request completes instantly in this
model: responses and the transient `isLoading` window are not modelled, so
`isLoading` stays as given).  Times are in milliseconds. -/

/-- A read request issued by `fetchStudents`: a search (trimmed text) or a
plain list, each with page and limit. -/
inductive Request where
  | search : String → Int → Int → Request
  | list : Int → Int → Request
deriving DecidableEq, Repr

structure Coord where
  raw : String
  deb : String
  /-- Pending debounce timer: scheduled value and absolute fire time.
  Modelled from the spec: the `useDebounce` hook's file is not among the
  sources; per the spec's debounce contract, each keystroke cancels the
  pending callback and schedules `deb := raw` 500ms later. -/
  pending : Option (String × Nat)
  page : Int
  limit : Int
  totalPages : Int
  isLoading : Bool
  requests : List Request
deriving DecidableEq, Repr

/-- JS `String.prototype.trim`: strip leading and trailing whitespace
(written structurally over the character list so it evaluates by kernel
reduction). -/
def jsTrim (s : String) : String :=
  ⟨((s.toList.dropWhile Char.isWhitespace).reverse.dropWhile Char.isWhitespace).reverse⟩

/-- The request `fetchStudents` issues: search with the trimmed debounced text
when it is non-empty, otherwise list. -/
def fetchFor (c : Coord) : Request :=
  if jsTrim c.deb == "" then .list c.page c.limit
  else .search (jsTrim c.deb) c.page c.limit

/-- The two effects of the component, run after a state change, against the
previously committed state `prev`:
* page-reset effect (deps `debouncedSearchText`, `searchText`): when either
  dep changed and they now differ, reset `page` to 1;
* fetch effect (deps `debouncedSearchText`, `pagination.page`, and `limit`
  via the `fetchStudents` callback identity): when a dep changed and the
  coordinator is not busy, issue one request.
React compares dependencies by value here, so an effect re-runs exactly when
one of its listed deps changed. -/
def applyEffects (prev c : Coord) : Coord :=
  let c1 := if (c.deb != prev.deb || c.raw != prev.raw) && c.deb != c.raw then
      { c with page := 1 } else c
  if (c1.deb != prev.deb || c1.page != prev.page || c1.limit != prev.limit)
      && !c1.isLoading then
    { c1 with requests := c1.requests ++ [fetchFor c1] }
  else c1

/-- A keystroke at time `t` changing the input to `v`: the raw value updates
and the debounce timer is (re)scheduled for `t + 500`; then the effects run. -/
def keystroke (c : Coord) (t : Nat) (v : String) : Coord :=
  applyEffects c { c with raw := v, pending := some (v, t + 500) }

/-- The debounce timer fires: the debounced value becomes the scheduled value;
then the effects run. -/
def fireTimer (c : Coord) : Coord :=
  match c.pending with
  | none => c
  | some (v, _) => applyEffects c { c with deb := v, pending := none }

/-- Process one timed keystroke: a pending timer whose deadline has passed
fires first, then the keystroke lands. -/
def stepEvent (c : Coord) : Nat × String → Coord
  | (t, v) =>
    match c.pending with
    | some (_, d) => if d ≤ t then keystroke (fireTimer c) t v else keystroke c t v
    | none => keystroke c t v

/-- Run a timed keystroke sequence and then let the input go quiet (the last
pending timer fires). -/
def runKeystrokes (c : Coord) (ks : List (Nat × String)) : Coord :=
  fireTimer (ks.foldl stepEvent c)

/-- `handlePageChange` (App.tsx): a no-op when the target page is out of
`1..totalPages` or a request is in flight; otherwise set the page and let the
effects run. -/
def handlePageChange (c : Coord) (newPage : Int) : Coord :=
  if newPage < 1 ∨ newPage > c.totalPages ∨ c.isLoading = true then c
  else applyEffects c { c with page := newPage }

/-- Keystroke times strictly increase from `t` with every gap under the 500ms
debounce window. -/
def rapidFrom : Nat → List (Nat × String) → Bool
  | _, [] => true
  | t, (t2, _) :: rest => decide (t < t2) && decide (t2 < t + 500) && rapidFrom t2 rest

/-- All gaps inside the keystroke sequence are under the 500ms window. -/
def rapid : List (Nat × String) → Bool
  | [] => true
  | (t, _) :: rest => rapidFrom t rest

/-- Last element of a nonempty list given as head plus tail. -/
def lastOf (p : Nat × String) : List (Nat × String) → Nat × String
  | [] => p
  | q :: rest => lastOf q rest

/-! ### Helper lemmas about the create handler -/

theorem createStudent_held (st : Store) (body : Student)
    (h : ∃ d ∈ st.records, d.student_id = body.student_id) :
    createStudent st body = (.httpError 400 "Student ID already exists", st) := by
  obtain ⟨d, hd, hsid⟩ := h
  unfold createStudent
  have : st.findOneByStudentId body.student_id ≠ none := by
    unfold Store.findOneByStudentId
    intro hnone
    rw [List.find?_eq_none] at hnone
    exact absurd (by simpa using hsid) (by simpa using hnone d hd)
  cases hfind : st.findOneByStudentId body.student_id with
  | none => exact absurd hfind this
  | some d' => rfl

theorem createStudent_fresh (st : Store) (body : Student)
    (h : ∀ d ∈ st.records, d.student_id ≠ body.student_id) :
    createStudent st body =
      (.ok ⟨st.nextId, body.student_id, body.firstname, body.lastname, body.nickname⟩,
       { st with
         records := st.records ++
           [⟨st.nextId, body.student_id, body.firstname, body.lastname, body.nickname⟩]
         nextId := st.nextId + 1 }) := by
  unfold createStudent
  have hfind : st.findOneByStudentId body.student_id = none := by
    unfold Store.findOneByStudentId
    rw [List.find?_eq_none]
    intro d hd
    simpa using h d hd
  rw [hfind]
  have hany : st.records.any (fun d => d.student_id == body.student_id) = false := by
    rw [List.any_eq_false]
    intro d hd
    simpa using h d hd
  unfold Store.insertOne
  rw [hany]
  simp

/-! ### Helper lemmas about the search filter -/

/-- A query text in which every character stands for itself as a regex. -/
def noMeta (q : String) : Bool := q.toList.all fun c => !(isRegexMeta c)

theorem parseRegex_noMeta (q : String) (hq : noMeta q = true) :
    parseRegex q = q.toList.map RegexAtom.lit := by
  unfold parseRegex
  apply List.map_congr_left
  intro c hc
  have hm := List.all_eq_true.mp hq c hc
  have hdot : (c == '.') = false := by
    cases h : (c == '.') with
    | false => rfl
    | true =>
      rw [Bool.not_eq_true'] at hm
      unfold isRegexMeta at hm
      rw [h] at hm
      simp at hm
  rw [hdot]
  rfl

theorem matchesHere_lit (l cs : List Char) :
    matchesHere (l.map RegexAtom.lit) cs = true ↔
      l.map Char.toLower <+: cs.map Char.toLower := by
  induction l generalizing cs with
  | nil => simp [matchesHere]
  | cons a as ih =>
    cases cs with
    | nil => simp [matchesHere]
    | cons c cs' =>
      simp only [List.map_cons, matchesHere, atomMatches, Bool.and_eq_true, beq_iff_eq,
        List.cons_prefix_cons]
      exact and_congr Iff.rfl (ih cs')

theorem matchesIn_lit (l cs : List Char) :
    matchesIn (l.map RegexAtom.lit) cs = true ↔
      l.map Char.toLower <:+: cs.map Char.toLower := by
  induction cs with
  | nil =>
    show matchesHere _ _ = true ↔ _
    rw [matchesHere_lit]
    simp
  | cons c cs' ih =>
    show (matchesHere _ _ || matchesIn _ _) = true ↔ _
    rw [Bool.or_eq_true, matchesHere_lit, ih, List.map_cons, List.infix_cons_iff]

theorem regexTest_noMeta (q s : String) (hq : noMeta q = true) :
    regexTest q s = true ↔ containsCI s q := by
  unfold regexTest containsCI lowerChars
  rw [parseRegex_noMeta q hq, matchesIn_lit]

theorem regexTest_congr_lower (q q' s : String) (hq : noMeta q = true)
    (hq' : noMeta q' = true) (hl : lowerChars q' = lowerChars q) :
    regexTest q' s = regexTest q s := by
  rw [Bool.eq_iff_iff, regexTest_noMeta q s hq, regexTest_noMeta q' s hq']
  unfold containsCI
  rw [hl]

theorem matchesIn_nil_pattern (l : List Char) : matchesIn [] l = true := by
  cases l <;> simp [matchesIn, matchesHere]

theorem searchFilter_empty (d : StudentDoc) : searchFilter "" d = true := by
  have h : ∀ s : String, regexTest "" s = true := by
    intro s
    have h0 : parseRegex "" = [] := rfl
    unfold regexTest
    rw [h0, matchesIn_nil_pattern]
  unfold searchFilter
  rw [h, h, h, h]
  rfl

/-! ### Helper lemmas about update and delete -/

theorem updateFirstById_append (l₁ l₂ : List StudentDoc) (d₀ : StudentDoc) (id : Nat)
    (h₁ : ∀ d ∈ l₁, d._id ≠ id) (h₀ : d₀._id = id) (s : Student) :
    updateFirstById (l₁ ++ d₀ :: l₂) id s = l₁ ++ setFields d₀ s :: l₂ := by
  induction l₁ with
  | nil => simp [updateFirstById, h₀]
  | cons d rest ih =>
    have hd : (d._id == id) = false := by
      simpa using h₁ d (List.mem_cons_self _ _)
    simp only [List.cons_append, updateFirstById, hd, Bool.false_eq_true, if_false,
      List.cons.injEq, true_and]
    exact ih fun d' hd' => h₁ d' (List.mem_cons_of_mem _ hd')

theorem eraseFirstById_append (l₁ l₂ : List StudentDoc) (d₀ : StudentDoc) (id : Nat)
    (h₁ : ∀ d ∈ l₁, d._id ≠ id) (h₀ : d₀._id = id) :
    eraseFirstById (l₁ ++ d₀ :: l₂) id = l₁ ++ l₂ := by
  induction l₁ with
  | nil => simp [eraseFirstById, h₀]
  | cons d rest ih =>
    have hd : (d._id == id) = false := by
      simpa using h₁ d (List.mem_cons_self _ _)
    simp only [List.cons_append, eraseFirstById, hd, Bool.false_eq_true, if_false,
      List.cons.injEq, true_and]
    exact ih fun d' hd' => h₁ d' (List.mem_cons_of_mem _ hd')

theorem findOneConflict_none (st : Store) (sid : String) (id : Nat)
    (h : ∀ d ∈ st.records, ¬(d.student_id = sid ∧ d._id ≠ id)) :
    st.findOneConflict sid id = none := by
  unfold Store.findOneConflict
  rw [List.find?_eq_none]
  intro d hd
  have hne := h d hd
  simp only [Bool.and_eq_true, beq_iff_eq, bne_iff_ne, ne_eq]
  exact fun hc => hne ⟨hc.1, hc.2⟩

theorem conflictPred_any_false (st : Store) (sid : String) (id : Nat)
    (h : ∀ d ∈ st.records, ¬(d.student_id = sid ∧ d._id ≠ id)) :
    st.records.any (fun d => d.student_id == sid && d._id != id) = false := by
  rw [List.any_eq_false]
  intro d hd
  have hne := h d hd
  simp only [Bool.and_eq_true, beq_iff_eq, bne_iff_ne, ne_eq]
  exact fun hc => hne ⟨hc.1, hc.2⟩

/-! ### Claim C1 -/

/-- C1: creating a record whose natural key (`student_id`) is already held by
an existing record yields the 400 conflict Response with its specific message
and leaves the store (hence its record count) unchanged; creating with a
fresh natural key persists exactly one new record and returns it including the
store-generated id. -/
theorem claim_C1_create_conflict_or_persist (st : Store) (body : Student) :
    ((∃ d ∈ st.records, d.student_id = body.student_id) →
      createStudent st body = (.httpError 400 "Student ID already exists", st))
    ∧ ((∀ d ∈ st.records, d.student_id ≠ body.student_id) →
      createStudent st body =
        (.ok ⟨st.nextId, body.student_id, body.firstname, body.lastname, body.nickname⟩,
         { st with
           records := st.records ++
             [⟨st.nextId, body.student_id, body.firstname, body.lastname, body.nickname⟩]
           nextId := st.nextId + 1 })) :=
  ⟨createStudent_held st body, createStudent_fresh st body⟩

/-- C1 witness: a held natural key is rejected on a concrete store, and a
fresh one is persisted. -/
theorem claim_C1_create_conflict_or_persist_witness :
    (∃ d ∈ (Store.mk [⟨1, "s1", "Anne", "Lee", "Ann"⟩] 2 true).records,
        d.student_id = (Student.mk "s1" "Bob" "" "").student_id)
    ∧ createStudent (Store.mk [⟨1, "s1", "Anne", "Lee", "Ann"⟩] 2 true)
        (Student.mk "s1" "Bob" "" "") =
        (.httpError 400 "Student ID already exists",
         Store.mk [⟨1, "s1", "Anne", "Lee", "Ann"⟩] 2 true)
    ∧ createStudent (Store.mk [⟨1, "s1", "Anne", "Lee", "Ann"⟩] 2 true)
        (Student.mk "s2" "Bob" "" "") =
        (.ok ⟨2, "s2", "Bob", "", ""⟩,
         Store.mk [⟨1, "s1", "Anne", "Lee", "Ann"⟩, ⟨2, "s2", "Bob", "", ""⟩] 3 true) :=
  ⟨by decide,
   (claim_C1_create_conflict_or_persist _ _).1 (by decide),
   (claim_C1_create_conflict_or_persist
     (Store.mk [⟨1, "s1", "Anne", "Lee", "Ann"⟩] 2 true) (Student.mk "s2" "Bob" "" "")).2
     (by decide)⟩

/-! ### Claim C2 -/

/-- C2 (amended): for non-empty query texts free of JS regex metacharacters,
the search filter matches a record exactly when one of the four fields
`student_id`, `firstname`, `lastname`, `nickname` contains the query as a
literal substring case-insensitively, and any case variation of such a query
(equal after case folding) yields the same filter on every record.  (As
stated the claim fails: the raw query is compiled as a regex pattern, see the
counterexample.) -/
theorem claim_C2_search_substring_ci (q : String) (d : StudentDoc)
    (hq : noMeta q = true) :
    (searchFilter q d = true ↔
      (containsCI d.student_id q ∨ containsCI d.firstname q ∨
        containsCI d.lastname q ∨ containsCI d.nickname q))
    ∧ (∀ q' : String, noMeta q' = true → lowerChars q' = lowerChars q →
        ∀ d' : StudentDoc, searchFilter q' d' = searchFilter q d') := by
  constructor
  · unfold searchFilter
    rw [Bool.or_eq_true, Bool.or_eq_true, Bool.or_eq_true,
      regexTest_noMeta q _ hq, regexTest_noMeta q _ hq, regexTest_noMeta q _ hq,
      regexTest_noMeta q _ hq]
    tauto
  · intro q' hq' hl d'
    unfold searchFilter
    rw [regexTest_congr_lower q q' _ hq hq' hl, regexTest_congr_lower q q' _ hq hq' hl,
      regexTest_congr_lower q q' _ hq hq' hl, regexTest_congr_lower q q' _ hq hq' hl]

/-- C2 witness: the spec's own example, query "ann" versus its case variation
"ANN" on a record with `firstname` "Anne". -/
theorem claim_C2_search_substring_ci_witness :
    noMeta "ann" = true
    ∧ (searchFilter "ann" (StudentDoc.mk 1 "s1" "Anne" "Lee" "Bea") = true ↔
        (containsCI "s1" "ann" ∨ containsCI "Anne" "ann" ∨
          containsCI "Lee" "ann" ∨ containsCI "Bea" "ann"))
    ∧ searchFilter "ANN" (StudentDoc.mk 1 "s1" "Anne" "Lee" "Bea") =
        searchFilter "ann" (StudentDoc.mk 1 "s1" "Anne" "Lee" "Bea") :=
  ⟨by decide,
   (claim_C2_search_substring_ci "ann" (StudentDoc.mk 1 "s1" "Anne" "Lee" "Bea")
     (by decide)).1,
   (claim_C2_search_substring_ci "ann" (StudentDoc.mk 1 "s1" "Anne" "Lee" "Bea")
     (by decide)).2 "ANN" (by decide) (by decide) _⟩

/-- C2 counterexample: the handler compiles the raw query as a regex pattern,
so the query "." matches a record none of whose fields contains "." as a
literal substring — the claimed "matches iff some field contains the query
text as a substring" fails. -/
theorem claim_C2_search_substring_ci_cx :
    searchFilter "." (StudentDoc.mk 1 "s1" "Anne" "Lee" "Ann") = true
    ∧ ¬(containsCI "s1" "." ∨ containsCI "Anne" "." ∨
        containsCI "Lee" "." ∨ containsCI "Ann" ".") := by
  decide

/-! ### Claim C3 -/

/-- C3 (amended): the search handler invoked with an *empty* query text
returns exactly the list handler's response for the same page and limit (the
empty pattern matches every document); a whitespace-only query does not in
general (see the counterexample). -/
theorem claim_C3_empty_search_eq_list (st : Store) (page limit : Nat) :
    searchStudents st "" page limit = getStudents st page limit := by
  unfold searchStudents getStudents
  rw [List.filter_eq_self.mpr fun d _ => searchFilter_empty d]

/-- C3 counterexample: a whitespace-only query " " is used as the single-space
regex, dropping every record without a space in any field, so its response
differs from the list response — the claim's "empty or whitespace-only"
fails for whitespace-only. -/
theorem claim_C3_empty_search_eq_list_cx :
    searchStudents (Store.mk [⟨1, "s1", "Anne", "Lee", "Ann"⟩] 2 true) " " 1 10 ≠
      getStudents (Store.mk [⟨1, "s1", "Anne", "Lee", "Ann"⟩] 2 true) 1 10 := by
  decide

/-! ### Claim C4 -/

/-- C4: for page ≥ 1 and limit ≥ 1, the list handler returns the records
obtained by skipping `(page-1)*limit` of the store's natural order and taking
at most `limit` (so at most `limit` records), with pagination metadata whose
`total` counts all records, whose `page`/`limit` echo the inputs, and whose
`totalPages` is exactly `ceil(total/limit)` (characterised as the least `c`
with `total ≤ limit * c`). -/
theorem claim_C4_list_pagination (st : Store) (page limit : Nat)
    (hp : 1 ≤ page) (hl : 1 ≤ limit) :
    (getStudents st page limit).students =
        (st.records.drop ((page - 1) * limit)).take limit
    ∧ (getStudents st page limit).students.length ≤ limit
    ∧ (getStudents st page limit).pagination.total = st.records.length
    ∧ (getStudents st page limit).pagination.page = page
    ∧ (getStudents st page limit).pagination.limit = limit
    ∧ (∀ c : Nat, (getStudents st page limit).pagination.totalPages ≤ c ↔
        st.records.length ≤ limit * c) := by
  refine ⟨rfl, ?_, rfl, rfl, rfl, ?_⟩
  · show ((st.records.drop ((page - 1) * limit)).take limit).length ≤ limit
    rw [List.length_take]
    exact min_le_left _ _
  · intro c
    show ceilDivNat st.records.length limit ≤ c ↔ _
    rw [show ceilDivNat st.records.length limit = st.records.length ⌈/⌉ limit from rfl]
    exact ceilDiv_le_iff_le_mul (show (0 : ℕ) < limit from hl)

/-- C4 witness: the spec's scenario — 12 records, limit 5, page 1: five
records returned and `totalPages` bounds pinning it to 3. -/
theorem claim_C4_list_pagination_witness :
    1 ≤ (1 : Nat) ∧ 1 ≤ (5 : Nat)
    ∧ (getStudents (Store.mk ((List.range 12).map fun i =>
        ⟨i, "s", "Anne", "Lee", "Ann"⟩) 12 true) 1 5).students.length ≤ 5
    ∧ ((getStudents (Store.mk ((List.range 12).map fun i =>
        ⟨i, "s", "Anne", "Lee", "Ann"⟩) 12 true) 1 5).pagination.totalPages ≤ 3 ↔
          (Store.mk ((List.range 12).map fun i =>
            ⟨i, "s", "Anne", "Lee", "Ann"⟩) 12 true).records.length ≤ 5 * 3) :=
  ⟨by decide, by decide,
   (claim_C4_list_pagination _ 1 5 (by decide) (by decide)).2.1,
   (claim_C4_list_pagination _ 1 5 (by decide) (by decide)).2.2.2.2.2 3⟩

/-! ### Claim C5 -/

/-- C5: an update whose replacement natural key is already held by a
*different* record yields the 400 conflict Response and leaves the store
unchanged; with no such collision, a target id matching no record yields the
404 Response and leaves the store unchanged; otherwise the matched record has
its four fields replaced with its `_id` kept, all other records are untouched,
and the updated record is returned (so re-using the record's own current
natural key succeeds, as the collision check excludes the record itself). -/
theorem claim_C5_update_conflict_notfound_replace (st : Store) (id : Nat)
    (body : Student) :
    ((∃ d ∈ st.records, d.student_id = body.student_id ∧ d._id ≠ id) →
      updateStudent st id body = (.httpError 400 "Student ID already exists", st))
    ∧ ((∀ d ∈ st.records, ¬(d.student_id = body.student_id ∧ d._id ≠ id)) →
       (∀ d ∈ st.records, d._id ≠ id) →
      updateStudent st id body = (.httpError 404 "Student not found", st))
    ∧ (∀ l₁ d₀ l₂, (∀ d ∈ st.records, ¬(d.student_id = body.student_id ∧ d._id ≠ id)) →
        st.records = l₁ ++ d₀ :: l₂ → (∀ d ∈ l₁, d._id ≠ id) → d₀._id = id →
      updateStudent st id body =
        (.ok ⟨id, body.student_id, body.firstname, body.lastname, body.nickname⟩,
         { st with records := l₁ ++ setFields d₀ body :: l₂ })) := by
  refine ⟨?_, ?_, ?_⟩
  · rintro ⟨d, hd, hsid, hne⟩
    unfold updateStudent
    have hne' : st.findOneConflict body.student_id id ≠ none := by
      unfold Store.findOneConflict
      intro hnone
      rw [List.find?_eq_none] at hnone
      exact hnone d hd (by simp [hsid, hne])
    cases hfind : st.findOneConflict body.student_id id with
    | none => exact absurd hfind hne'
    | some d' => rfl
  · intro hnoc hnom
    unfold updateStudent
    rw [findOneConflict_none st _ id hnoc]
    unfold Store.updateOneById
    rw [conflictPred_any_false st _ id hnoc]
    have hany2 : st.records.any (fun d => d._id == id) = false := by
      rw [List.any_eq_false]
      intro d hd
      simpa using hnom d hd
    rw [hany2]
    simp
  · intro l₁ d₀ l₂ hnoc hsplit h₁ h₀
    unfold updateStudent
    rw [findOneConflict_none st _ id hnoc]
    unfold Store.updateOneById
    rw [conflictPred_any_false st _ id hnoc]
    have hany2 : st.records.any (fun d => d._id == id) = true := by
      rw [List.any_eq_true]
      exact ⟨d₀, by rw [hsplit]; exact List.mem_append_right _ (List.mem_cons_self _ _),
        by simp [h₀]⟩
    rw [hany2]
    simp only [Bool.and_false, Bool.false_eq_true, if_false, if_true, Bool.true_eq_false,
      OfNat.ofNat_ne_one]
    rw [hsplit, updateFirstById_append l₁ l₂ d₀ id h₁ h₀ body]
    simp

/-- C5 witness: updating a record to re-use its own current natural key
succeeds and replaces the four fields while keeping the id. -/
theorem claim_C5_update_conflict_notfound_replace_witness :
    (∀ d ∈ (Store.mk [⟨1, "s1", "Anne", "Lee", "Ann"⟩] 2 true).records,
        ¬(d.student_id = "s1" ∧ d._id ≠ 1))
    ∧ updateStudent (Store.mk [⟨1, "s1", "Anne", "Lee", "Ann"⟩] 2 true) 1
        (Student.mk "s1" "Anna" "Li" "An") =
        (.ok ⟨1, "s1", "Anna", "Li", "An"⟩,
         Store.mk [⟨1, "s1", "Anna", "Li", "An"⟩] 2 true) :=
  ⟨by decide,
   (claim_C5_update_conflict_notfound_replace
      (Store.mk [⟨1, "s1", "Anne", "Lee", "Ann"⟩] 2 true) 1
      (Student.mk "s1" "Anna" "Li" "An")).2.2
      [] ⟨1, "s1", "Anne", "Lee", "Ann"⟩ [] (by decide) rfl (by decide) rfl⟩

/-! ### Claim C6 -/

/-- C6 (amended): deleting an id held by no record surfaces the not-found
failure as a thrown Error ("Can't find this student to delete.", the
NotFoundError of the taxonomy) and leaves the store unchanged — but, unlike
the create/update handlers, it returns no Response with an explicit HTTP
status, so no 404 is produced by this code (the framework's default maps a
plain thrown Error to 500); deleting an existing id removes exactly that
record and returns the confirmation message (not the deleted record).  (As
stated — "surfaced as a 404 not-found failure" — the claim fails: see the
counterexample.) -/
theorem claim_C6_delete_notfound_or_remove (st : Store) (id : Nat) :
    ((∀ d ∈ st.records, d._id ≠ id) →
      deleteStudent st id = (.thrown "Can't find this student to delete.", st))
    ∧ (∀ l₁ d₀ l₂, st.records = l₁ ++ d₀ :: l₂ →
        (∀ d ∈ l₁, d._id ≠ id) → d₀._id = id →
      deleteStudent st id =
        (.ok "Student deleted successfully", { st with records := l₁ ++ l₂ })) := by
  constructor
  · intro hnom
    have hany : st.records.any (fun d => d._id == id) = false := by
      rw [List.any_eq_false]
      intro d hd
      simpa using hnom d hd
    unfold deleteStudent Store.deleteOneById
    rw [hany]
    simp
  · intro l₁ d₀ l₂ hsplit h₁ h₀
    have hany : st.records.any (fun d => d._id == id) = true := by
      rw [List.any_eq_true]
      exact ⟨d₀, by rw [hsplit]; exact List.mem_append_right _ (List.mem_cons_self _ _),
        by simp [h₀]⟩
    unfold deleteStudent Store.deleteOneById
    rw [hany]
    simp only [if_true, Bool.true_eq_false]
    rw [hsplit, eraseFirstById_append l₁ l₂ d₀ id h₁ h₀]
    simp

/-- C6 witness: deleting a missing id on a concrete store changes nothing, and
deleting an existing id removes the record and returns the message. -/
theorem claim_C6_delete_notfound_or_remove_witness :
    (∀ d ∈ (Store.mk [⟨1, "s1", "Anne", "Lee", "Ann"⟩] 2 true).records, d._id ≠ 7)
    ∧ deleteStudent (Store.mk [⟨1, "s1", "Anne", "Lee", "Ann"⟩] 2 true) 7 =
        (.thrown "Can't find this student to delete.",
         Store.mk [⟨1, "s1", "Anne", "Lee", "Ann"⟩] 2 true)
    ∧ deleteStudent (Store.mk [⟨1, "s1", "Anne", "Lee", "Ann"⟩] 2 true) 1 =
        (.ok "Student deleted successfully", Store.mk [] 2 true) :=
  ⟨by decide,
   (claim_C6_delete_notfound_or_remove (Store.mk [⟨1, "s1", "Anne", "Lee", "Ann"⟩] 2 true)
      7).1 (by decide),
   (claim_C6_delete_notfound_or_remove (Store.mk [⟨1, "s1", "Anne", "Lee", "Ann"⟩] 2 true)
      1).2 [] ⟨1, "s1", "Anne", "Lee", "Ann"⟩ [] rfl (by decide) rfl⟩

/-- C6 counterexample: deleting the missing id 7 yields the thrown Error, not
a Response with an HTTP status — the handler produces no 404 (in contrast to
the update handler's explicit 404 Response), so the not-found failure is not
"surfaced as a 404" by this code; a plain thrown Error is mapped by the
framework's default error handling to 500. -/
theorem claim_C6_delete_notfound_or_remove_cx :
    deleteStudent (Store.mk [⟨1, "s1", "Anne", "Lee", "Ann"⟩] 2 true) 7 =
      (.thrown "Can't find this student to delete.",
       Store.mk [⟨1, "s1", "Anne", "Lee", "Ann"⟩] 2 true)
    ∧ (deleteStudent (Store.mk [⟨1, "s1", "Anne", "Lee", "Ann"⟩] 2 true) 7).1.isHttpError
        = false := by
  decide

/-! ### Claim C7 -/

/-- C7 (amended): the server-side create operation applies no firstName
validation — a create request with an empty (or absent) firstName and a fresh
natural key is persisted and answered like any other create; the only
server-side rejection is the natural-key uniqueness check, and firstName
required-ness exists only as a client-side form constraint.  (As stated the
claim fails: see the counterexample.) -/
theorem claim_C7_create_no_firstname_validation (st : Store) (sid ln nn : String)
    (h : ∀ d ∈ st.records, d.student_id ≠ sid) :
    createStudent st (Student.mk sid "" ln nn) =
      (.ok ⟨st.nextId, sid, "", ln, nn⟩,
       { st with records := st.records ++ [⟨st.nextId, sid, "", ln, nn⟩]
                 nextId := st.nextId + 1 }) :=
  createStudent_fresh st (Student.mk sid "" ln nn) h

/-- C7 witness: a concrete create with empty firstName persists. -/
theorem claim_C7_create_no_firstname_validation_witness :
    (∀ d ∈ (Store.mk [⟨1, "s0", "Anne", "Lee", "Ann"⟩] 2 true).records,
        d.student_id ≠ "s1")
    ∧ createStudent (Store.mk [⟨1, "s0", "Anne", "Lee", "Ann"⟩] 2 true)
        (Student.mk "s1" "" "" "") =
        (.ok ⟨2, "s1", "", "", ""⟩,
         Store.mk [⟨1, "s0", "Anne", "Lee", "Ann"⟩, ⟨2, "s1", "", "", ""⟩] 3 true) :=
  ⟨by decide,
   claim_C7_create_no_firstname_validation
     (Store.mk [⟨1, "s0", "Anne", "Lee", "Ann"⟩] 2 true) "s1" "" "" (by decide)⟩

/-- C7 counterexample: on an empty store, a create request with empty
firstName yields an 'ok' response (no ValidationError of any kind) and a
record IS persisted — contradicting the claim that it fails with a
ValidationError and persists nothing. -/
theorem claim_C7_create_no_firstname_validation_cx :
    createStudent (Store.mk [] 0 true) (Student.mk "s1" "" "" "") =
      (.ok ⟨0, "s1", "", "", ""⟩, Store.mk [⟨0, "s1", "", "", ""⟩] 1 true)
    ∧ (createStudent (Store.mk [] 0 true) (Student.mk "s1" "" "" "")).2.records.length = 1 := by
  decide

/-! ### Claim C8 -/

/-- C8 (amended): `goToPage(n)` is a no-op — no request issued, the whole
coordinator state unchanged — whenever n < 1, n > totalPages, or the
coordinator is busy (so navigation to 0, to a negative number, or to
totalPages+1 is always rejected); otherwise it sets the page to n and issues
exactly one fetch when n differs from the current page, and no fetch when n
equals it (the fetch effect re-runs only when a dependency value changed).
(As stated the claim fails for n = current page: see the counterexample.) -/
theorem claim_C8_goToPage (c : Coord) (n : Int) :
    ((n < 1 ∨ n > c.totalPages ∨ c.isLoading = true) → handlePageChange c n = c)
    ∧ (¬(n < 1 ∨ n > c.totalPages ∨ c.isLoading = true) →
      handlePageChange c n =
        { c with page := n,
                 requests := if n = c.page then c.requests
                   else c.requests ++ [fetchFor { c with page := n }] }) := by
  constructor
  · intro h
    unfold handlePageChange
    rw [if_pos h]
  · intro h
    have hload : c.isLoading = false := by
      cases hl : c.isLoading with
      | false => rfl
      | true => exact absurd (Or.inr (Or.inr hl)) h
    unfold handlePageChange
    rw [if_neg h]
    unfold applyEffects
    simp only [bne_self_eq_false, Bool.false_or, Bool.or_false, Bool.false_and, Bool.and_false,
      Bool.false_eq_true, if_false, hload, Bool.not_false, Bool.and_true]
    by_cases hp : n = c.page
    · subst hp
      simp
    · rw [if_pos (by simpa [bne_iff_ne] using hp), if_neg hp]

/-- C8 witness: on an idle coordinator at page 1 of 3, goToPage 2 sets the
page and issues one list request. -/
theorem claim_C8_goToPage_witness :
    ¬((2 : Int) < 1 ∨ (2 : Int) > (Coord.mk "" "" none 1 5 3 false []).totalPages ∨
        (Coord.mk "" "" none 1 5 3 false []).isLoading = true)
    ∧ handlePageChange (Coord.mk "" "" none 1 5 3 false []) 2 =
        Coord.mk "" "" none 2 5 3 false [Request.list 2 5] :=
  ⟨by decide,
   ((claim_C8_goToPage (Coord.mk "" "" none 1 5 3 false []) 2).2 (by decide)).trans
     (by decide)⟩

/-- C8 counterexample: with totalPages = 3 and an idle coordinator on page 1,
goToPage 1 passes the guard (1 is within range and the coordinator is not
busy), yet the state is unchanged and no request is issued — the claim's
"otherwise it sets the current page to n and triggers a fetch" fails for
n equal to the current page. -/
theorem claim_C8_goToPage_cx :
    ¬((1 : Int) < 1 ∨ (1 : Int) > (Coord.mk "" "" none 1 5 3 false []).totalPages ∨
        (Coord.mk "" "" none 1 5 3 false []).isLoading = true)
    ∧ handlePageChange (Coord.mk "" "" none 1 5 3 false []) 1 =
        Coord.mk "" "" none 1 5 3 false [] := by
  decide

/-! ### Claim C10 -/

/-- C10: `createIndexes` (run at process startup from `connectToMongo`)
declares the unique store index on `student_id`; with the index present the
store itself rejects any insert of an already-held natural key and any update
that would give the target record a natural key held by a different record —
independently of the handlers' pre-checks. -/
theorem claim_C10_unique_index (st : Store) (s : Student) (id : Nat) :
    ((∃ d ∈ st.records, d.student_id = s.student_id) →
      (createIndexes st).insertOne s = .error .duplicateKey)
    ∧ ((∃ d ∈ st.records, d.student_id = s.student_id ∧ d._id ≠ id) →
      (createIndexes st).updateOneById id s = .error .duplicateKey) := by
  constructor
  · rintro ⟨d, hd, hsid⟩
    have hany : st.records.any (fun d => d.student_id == s.student_id) = true := by
      rw [List.any_eq_true]
      exact ⟨d, hd, by simp [hsid]⟩
    unfold createIndexes Store.insertOne
    simp [hany]
  · rintro ⟨d, hd, hsid, hne⟩
    have hany : st.records.any
        (fun d => d.student_id == s.student_id && d._id != id) = true := by
      rw [List.any_eq_true]
      exact ⟨d, hd, by simp [hsid, hne]⟩
    unfold createIndexes Store.updateOneById
    simp [hany]

/-- C10 witness: with the index created on a store previously lacking it, a
duplicate-key insert is rejected by the store itself. -/
theorem claim_C10_unique_index_witness :
    (∃ d ∈ (Store.mk [⟨1, "s1", "Anne", "Lee", "Ann"⟩] 2 false).records,
        d.student_id = "s1")
    ∧ (createIndexes (Store.mk [⟨1, "s1", "Anne", "Lee", "Ann"⟩] 2 false)).insertOne
        (Student.mk "s1" "Bob" "" "") = .error .duplicateKey :=
  ⟨by decide,
   (claim_C10_unique_index (Store.mk [⟨1, "s1", "Anne", "Lee", "Ann"⟩] 2 false)
      (Student.mk "s1" "Bob" "" "") 0).1 (by decide)⟩

/-! ### Claim C9 -/

theorem foldl_rapid (q0 : String) (lim tp : Int) (rs : List Request) :
    ∀ (ks : List (Nat × String)) (t : Nat) (v : String),
      rapidFrom t ks = true →
      ks.foldl stepEvent (Coord.mk v q0 (some (v, t + 500)) 1 lim tp false rs) =
        Coord.mk (lastOf (t, v) ks).2 q0
          (some ((lastOf (t, v) ks).2, (lastOf (t, v) ks).1 + 500)) 1 lim tp false rs := by
  intro ks
  induction ks with
  | nil => intro t v _; rfl
  | cons k rest ih =>
    obtain ⟨t2, v2⟩ := k
    intro t v hr
    simp only [rapidFrom, Bool.and_eq_true, decide_eq_true_eq] at hr
    have hstep : stepEvent (Coord.mk v q0 (some (v, t + 500)) 1 lim tp false rs) (t2, v2) =
        Coord.mk v2 q0 (some (v2, t2 + 500)) 1 lim tp false rs := by
      show (if t + 500 ≤ t2 then _ else keystroke _ t2 v2) = _
      rw [if_neg (show ¬ (t + 500 ≤ t2) by omega)]
      unfold keystroke applyEffects
      simp [bne_self_eq_false]
    rw [List.foldl_cons, hstep]
    exact ih t2 v2 hr.2

/-- C9 (amended): from a settled coordinator on page 1 (raw = debounced text,
no pending timer, idle), a nonempty burst of keystrokes whose gaps are all
under the 500ms window leaves the debounced value unchanged until the quiet
period after the last keystroke; once it elapses, exactly one request is
issued, a search carrying only the trimmed final text at page 1 (provided the
final text differs from the previous debounced text and is nonblank).  The
page reset fires at *keystroke* time — any raw-input change to a value
differing from the current debounced value sets the page to 1 — not at
debounced-value-change time.  (As stated the claim fails: from a settled
state on page > 1 the first keystroke's page reset issues an extra request
carrying the stale debounced text, see the counterexample.) -/
theorem claim_C9_debounce_single_request (q0 : String) (lim tp : Int) (t1 : Nat)
    (v1 : String) (rest : List (Nat × String))
    (hr : rapidFrom t1 rest = true)
    (hend : (lastOf (t1, v1) rest).2 ≠ q0)
    (htrim : jsTrim (lastOf (t1, v1) rest).2 ≠ "") :
    (runKeystrokes (Coord.mk q0 q0 none 1 lim tp false []) ((t1, v1) :: rest) =
      Coord.mk (lastOf (t1, v1) rest).2 (lastOf (t1, v1) rest).2 none 1 lim tp false
        [Request.search (jsTrim (lastOf (t1, v1) rest).2) 1 lim])
    ∧ (((t1, v1) :: rest).foldl stepEvent (Coord.mk q0 q0 none 1 lim tp false [])).deb = q0
    ∧ (∀ (c : Coord) (t : Nat) (v : String), v ≠ c.raw → v ≠ c.deb →
        (keystroke c t v).page = 1) := by
  have hfirst : stepEvent (Coord.mk q0 q0 none 1 lim tp false []) (t1, v1) =
      Coord.mk v1 q0 (some (v1, t1 + 500)) 1 lim tp false [] := by
    show keystroke _ t1 v1 = _
    unfold keystroke applyEffects
    simp [bne_self_eq_false]
  have hfold : ((t1, v1) :: rest).foldl stepEvent (Coord.mk q0 q0 none 1 lim tp false []) =
      Coord.mk (lastOf (t1, v1) rest).2 q0
        (some ((lastOf (t1, v1) rest).2, (lastOf (t1, v1) rest).1 + 500)) 1 lim tp false [] := by
    rw [List.foldl_cons, hfirst]
    exact foldl_rapid q0 lim tp [] rest t1 v1 hr
  refine ⟨?_, ?_, ?_⟩
  · unfold runKeystrokes
    rw [hfold]
    unfold fireTimer applyEffects
    have h1 : ((lastOf (t1, v1) rest).2 != q0) = true := by
      simpa using hend
    have h2 : (jsTrim (lastOf (t1, v1) rest).2 == "") = false := by
      simpa using htrim
    simp [bne_self_eq_false, h1, fetchFor, h2]
  · rw [hfold]
  · intro c t v hraw hdeb
    unfold keystroke applyEffects
    have h1 : (v != c.raw) = true := by simpa using hraw
    have h2 : (c.deb != v) = true := by simpa using Ne.symm hdeb
    simp [h1, h2]
    split <;> rfl

/-- C9 witness: a settled idle coordinator on page 1 with empty search text
receives the burst "a", "an", "ann" at 0ms, 100ms, 200ms: the debounced value
stays "" throughout the burst and exactly one request is issued — a search
carrying "ann" at page 1. -/
theorem claim_C9_debounce_single_request_witness :
    rapidFrom 0 [(100, "an"), (200, "ann")] = true
    ∧ runKeystrokes (Coord.mk "" "" none 1 5 3 false [])
        [(0, "a"), (100, "an"), (200, "ann")] =
        Coord.mk "ann" "ann" none 1 5 3 false [Request.search "ann" 1 5]
    ∧ ([(0, "a"), (100, "an"), (200, "ann")].foldl stepEvent
        (Coord.mk "" "" none 1 5 3 false [])).deb = "" :=
  ⟨by decide,
   ((claim_C9_debounce_single_request "" 5 3 0 "a" [(100, "an"), (200, "ann")]
      (by decide) (by decide) (by decide)).1).trans (by decide),
   (claim_C9_debounce_single_request "" 5 3 0 "a" [(100, "an"), (200, "ann")]
      (by decide) (by decide) (by decide)).2.1⟩

/-- C9 counterexample: from a settled state on page 2 with debounced text "x",
two rapid keystrokes inside one 500ms quiet window issue TWO search requests —
the first keystroke's page reset immediately fires a request carrying the
stale debounced text "x", then the debounce fire sends the final text —
contradicting "exactly one search request ... carrying only the final text
value". -/
theorem claim_C9_debounce_single_request_cx :
    rapid [(0, "xa"), (100, "xan")] = true
    ∧ (runKeystrokes (Coord.mk "x" "x" none 2 5 3 false [])
        [(0, "xa"), (100, "xan")]).requests =
        [Request.search "x" 1 5, Request.search "xan" 1 5] := by
  decide

end HakimElysia
